import Mathlib

/-!
Verification of the VOC discovery pipeline (content-finder repository).

Shallow embedding of the Python modules
`backend/intelligence/voc_discovery.py`, `voc_reddit.py`, `voc_trends.py`
and `voc_synthesis.py`.  Pure data flow is modelled as Lean functions;
external effects (HTTP fetches, the Gemini model, Firestore commits) are
modelled as explicit inputs / oracles; the dedup history is modelled as
explicit state passed through runs.  Definitions come first, theorems after.
-/

namespace VOC

/-- A Python/JSON value, distinguishing `int` from `float` and keeping
`bool` separate (Python's `isinstance(x, int)` accepts `bool`, which the
numeric helpers below reproduce).  Dicts are insertion-ordered key/value
lists, as Python dicts are. -/
inductive PyVal where
  | none
  | pybool (b : Bool)
  | pyint (n : Int)
  | pyfloat (q : ℚ)
  | pystr (s : String)
  | pylist (xs : List PyVal)
  | pydict (xs : List (String × PyVal))

/-- Python truthiness of a value (`bool(x)`). -/
def pyTruthy : PyVal → Bool
  | .none => false
  | .pybool b => b
  | .pyint n => n ≠ 0
  | .pyfloat q => q ≠ 0
  | .pystr s => s ≠ ""
  | .pylist xs => ¬ xs.isEmpty
  | .pydict xs => ¬ xs.isEmpty

/-- `x or y` on Python values: `y` when `x` is falsy. -/
def pyOr (x y : PyVal) : PyVal := if pyTruthy x then x else y

/-- First value stored under a key (`d[k]` / `d.get(k)`): Python dicts hold
each key once, so first-occurrence lookup models them. -/
def pyGet : List (String × PyVal) → String → Option PyVal
  | [], _ => Option.none
  | (k', v) :: rest, k => if k' = k then some v else pyGet rest k

/-- `d.get(k, default)`. -/
def pyGetD (d : List (String × PyVal)) (k : String) (dflt : PyVal) : PyVal :=
  (pyGet d k).getD dflt

/-- `k in d`. -/
def hasKey (d : List (String × PyVal)) (k : String) : Bool :=
  (pyGet d k).isSome

/-- `d[k] = v`: replace the value in place if the key exists, else append. -/
def setKey : List (String × PyVal) → String → PyVal → List (String × PyVal)
  | [], k, v => [(k, v)]
  | (k', v') :: rest, k, v =>
      if k' = k then (k, v) :: rest else (k', v') :: setKey rest k v

/-- `isinstance(x, int)` (accepts `bool`, Python's `bool` being an `int`). -/
def pyIsIntLike : PyVal → Bool
  | .pybool _ => true
  | .pyint _ => true
  | _ => false

/-- `isinstance(x, (int, float))` (accepts `bool`). -/
def pyIsNumeric : PyVal → Bool
  | .pybool _ => true
  | .pyint _ => true
  | .pyfloat _ => true
  | _ => false

/-- Numeric value of an int-or-bool (`True` counts as 1); 0 otherwise. -/
def pyToInt : PyVal → Int
  | .pybool b => if b then 1 else 0
  | .pyint n => n
  | _ => 0

/-- `float(x)` of a numeric-or-bool value; 0 otherwise. -/
def pyToQ : PyVal → ℚ
  | .pybool b => if b then 1 else 0
  | .pyint n => (n : ℚ)
  | .pyfloat q => q
  | _ => 0

/-- `x is None`. -/
def pyIsNone : PyVal → Bool
  | .none => true
  | _ => false

/-- `str(x)`, used only to render prompt lines.  The structural cases mirror
Python's `str`; numeric and container formatting is idealised (no claim
inspects the rendered text, only whether lines exist). -/
def pyStrOf : PyVal → String
  | .none => "None"
  | .pybool b => if b then "True" else "False"
  | .pyint n => toString n
  | .pyfloat q => toString q
  | .pystr s => s
  | .pylist _ => "[...]"
  | .pydict _ => "\x7b...\x7d"

/-- Insert into a descending-by-key list, after any earlier element with an
equal or larger key (keeps the stable order of Python's `list.sort`). -/
def insertDescBy (key : α → ℚ) (x : α) : List α → List α
  | [] => [x]
  | y :: ys => if key y < key x then x :: y :: ys else y :: insertDescBy key x ys

/-- Stable descending sort by a rational key, the behaviour of
`list.sort(key=..., reverse=True)`. -/
def sortDescBy (key : α → ℚ) (l : List α) : List α :=
  l.foldl (fun acc x => insertDescBy key x acc) []

/-- Python `round` to the nearest integer with ties to even (banker's
rounding), over exact rationals. -/
def pyRoundHalfEven (q : ℚ) : Int :=
  let f := ⌊q⌋
  let r := q - (f : ℚ)
  if r < 1/2 then f
  else if 1/2 < r then f + 1
  else if f % 2 = 0 then f else f + 1

/-- `round(x, 1)` over exact rationals. -/
def pyRound1 (q : ℚ) : ℚ := (pyRoundHalfEven (q * 10) : ℚ) / 10

/-- Python `str.strip()`: drop leading and trailing whitespace.  Defined
over the character list so that it evaluates by kernel reduction. -/
def pyStrip (s : String) : String :=
  ⟨((s.data.dropWhile Char.isWhitespace).reverse.dropWhile Char.isWhitespace).reverse⟩

/-- Python slicing `s[:n]` by characters, defined over the character list
so that it evaluates by kernel reduction. -/
def pyTake (s : String) (n : Nat) : String :=
  ⟨s.data.take n⟩

/-- `a or b` for optional ints where both a missing value and 0 are falsy. -/
def orIntOpt (x : Option Int) (d : Int) : Int :=
  match x with
  | some n => if n = 0 then d else n
  | Option.none => d

/-- `a or b` for optional strings where both a missing value and the empty
string are falsy. -/
def orStrOpt (x : Option String) (d : String) : String :=
  match x with
  | some s => if s = "" then d else s
  | Option.none => d

end VOC

namespace VOC.Discovery

/-! Embedding of `voc_discovery.py` (fetch, history, prescore, queries). -/

/-- `RedditFilters` from `voc_discovery._parse_filters`. -/
structure RedditFilters where
  min_score : Int
  min_comments : Int
  time_range : String
  sort : String
  deriving DecidableEq, Repr

/-- A raw post as delivered by the listing API, with the fields
`fetch_reddit_posts` reads; absent keys are `Option.none`. -/
structure RawPost where
  id : String
  ups : Option Int
  score : Option Int
  num_comments : Option Int
  title : String
  subreddit : Option String
  url : Option String
  full_link : Option String
  selftext : Option String
  created_utc : Option Int
  stickied : Option Bool
  deriving DecidableEq, Repr

/-- `int(post.get("ups") or post.get("score") or 0)`. -/
def effScore (p : RawPost) : Int :=
  VOC.orIntOpt p.ups (VOC.orIntOpt p.score 0)

/-- `int(post.get("num_comments") or 0)`. -/
def effComments (p : RawPost) : Int :=
  VOC.orIntOpt p.num_comments 0

/-- The curated candidate dict built by `fetch_reddit_posts`. -/
structure CuratedPost where
  id : String
  title : String
  subreddit : String
  score : Int
  num_comments : Int
  url : Option String
  content_snippet : String
  created_utc : Int
  stickied : Bool
  deriving DecidableEq, Repr

/-- `post.get("url") or post.get("full_link")` (empty strings are falsy). -/
def curatedUrl (p : RawPost) : Option String :=
  match p.url with
  | some s => if s = "" then p.full_link else some s
  | Option.none => p.full_link

/-- The dict appended to `curated_posts` for a passing raw post. -/
def curatePost (sub : String) (p : RawPost) : CuratedPost :=
  { id := VOC.pyStrip p.id
    title := p.title
    subreddit := p.subreddit.getD sub
    score := effScore p
    num_comments := effComments p
    url := curatedUrl p
    content_snippet := VOC.pyTake (p.selftext.getD "") 300
    created_utc := p.created_utc.getD 0
    stickied := p.stickied.getD false }

/-- The per-post test inside the `fetch_reddit_posts` loop: a nonempty id
not yet in history, and the engagement thresholds. -/
def postPasses (filters : RedditFilters) (processed : List String) (p : RawPost) : Bool :=
  let pid := VOC.pyStrip p.id
  if pid = "" ∨ pid ∈ processed then false
  else if effScore p < filters.min_score ∨ effComments p < filters.min_comments then false
  else true

/-- One subreddit together with the outcome of its listing request
(`Except.error` models a `requests.RequestException`). -/
abbrev SubredditFetch := String × Except Unit (List RawPost)

/-- `fetch_reddit_posts` (voc_discovery.py lines 179-279) given the loaded
history set and each subreddit's HTTP outcome.  A failed request adds a
warning and collection continues; passing posts are curated in order. -/
def fetch_reddit_posts (filters : RedditFilters) (processed : List String)
    (fetches : List SubredditFetch) : List CuratedPost × List String :=
  List.foldl
    (fun acc sf =>
      match sf.2 with
      | .error _ => (acc.1, acc.2 ++ ["Failed to fetch subreddit " ++ sf.1])
      | .ok raw =>
          (acc.1 ++ (raw.filter (postPasses filters processed)).map (curatePost sf.1), acc.2))
    (([], []) : List CuratedPost × List String) fetches

/-- The candidate posts one subreddit contributes to the curated list. -/
def subredditContribution (filters : RedditFilters) (processed : List String)
    (sf : SubredditFetch) : List CuratedPost :=
  match sf.2 with
  | .error _ => []
  | .ok raw => (raw.filter (postPasses filters processed)).map (curatePost sf.1)

/-- The dedup ledger: the per-segment in-memory cache plus the Firestore
collection when a client is available (`Option.none` = Firestore
unavailable). -/
structure HistoryState where
  cache : List String
  store : Option (List String)
  deriving DecidableEq, Repr

/-- `_load_processed_post_ids`: with no Firestore client, read the
in-memory cache; with a client, stream the collection — overwriting the
in-memory cache with the loaded set (line 149) — unless the stream raises
(`loadOk = false`), in which case the cache is returned and left
unchanged. -/
def loadProcessedPostIds (loadOk : Bool) : HistoryState → List String × HistoryState
  | ⟨cache, Option.none⟩ => (cache, ⟨cache, Option.none⟩)
  | ⟨cache, some store⟩ =>
      if loadOk then (store, ⟨store, some store⟩)
      else (cache, ⟨cache, some store⟩)

/-- `_mark_posts_processed`: drop empty ids, return unchanged when nothing
is left; otherwise write the batch to Firestore when a client exists — a
failed `batch.commit()` (`commitOk = false`, lines 170-173) only logs a
warning and leaves the store unchanged — and always update the in-memory
cache. -/
def markPostsProcessed (st : HistoryState) (commitOk : Bool) (ids : List String) :
    HistoryState :=
  match ids.filter (fun i => i ≠ "") with
  | [] => st
  | keep =>
      ⟨st.cache ++ keep, if commitOk then st.store.map (· ++ keep) else st.store⟩

/-- The id is durably recorded in the ledger: present in the in-memory
cache and in the persistent store whenever one exists.  Exactly the state
a successful batch commit leaves behind, and what every later load —
successful or cache-fallback — reports as processed. -/
def idMarked (st : HistoryState) (x : String) : Prop :=
  x ∈ st.cache ∧ ∀ s, st.store = some s → x ∈ s

/-- One full `fetch_reddit_posts` call including its history side effects:
load the processed set, curate, then mark every returned id before
returning.  `loadOk` and `commitOk` are the outcomes of the Firestore
stream and batch commit. -/
structure FetchRun where
  posts : List CuratedPost
  warnings : List String
  state : HistoryState
  deriving DecidableEq, Repr

def runFetch (filters : RedditFilters) (loadOk commitOk : Bool) (st : HistoryState)
    (fetches : List SubredditFetch) : FetchRun :=
  let loaded := loadProcessedPostIds loadOk st
  let r := fetch_reddit_posts filters loaded.1 fetches
  { posts := r.1
    warnings := r.2
    state := markPostsProcessed loaded.2 commitOk (r.1.map (·.id)) }

/-- One run's inputs: the load outcome, the commit outcome, and the
per-subreddit fetch outcomes. -/
abbrev RunInput := Bool × Bool × List SubredditFetch

/-- A sequence of fetch runs for the same segment, threading the history. -/
def fetchRuns (filters : RedditFilters) :
    HistoryState → List RunInput → List (List CuratedPost) × HistoryState
  | st, [] => ([], st)
  | st, ri :: rest =>
      let r := runFetch filters ri.1 ri.2.1 st ri.2.2
      let rest2 := fetchRuns filters r.state rest
      (r.posts :: rest2.1, rest2.2)

/-- The `[child.get("data", {}) for child in children]` comprehension of the
`{data:{children:[...]}}` branch.  Iterating a non-list raises unless it is
an empty iterable; a non-dict child raises on `.get`. -/
def childrenList : List VOC.PyVal → Except Unit (List VOC.PyVal)
  | [] => .ok []
  | c :: rest =>
      match c with
      | .pydict kvs =>
          match childrenList rest with
          | .ok l => .ok (VOC.pyGetD kvs "data" (.pydict []) :: l)
          | .error e => .error e
      | _ => .error ()

/-- The value `payload["data"].get("children", [])` iterated by the
comprehension; empty iterables yield no posts, other non-lists raise. -/
def childrenPosts : VOC.PyVal → Except Unit (List VOC.PyVal)
  | .pylist xs => childrenList xs
  | .pystr s => if s = "" then .ok [] else .error ()
  | .pydict kvs => if kvs.isEmpty then .ok [] else .error ()
  | _ => .error ()

/-- Payload-shape normalisation in `fetch_reddit_posts`
(voc_discovery.py lines 233-244): bare array, `data` list, `posts` list,
`data.children` — in that branch order — any other shape leaves the post
list empty. -/
def normalizeListingPayload (payload : VOC.PyVal) : Except Unit (List VOC.PyVal) :=
  match payload with
  | .pydict d =>
      match VOC.pyGet d "data" with
      | some (.pylist l) => .ok l
      | _ =>
          match VOC.pyGet d "posts" with
          | some (.pylist l) => .ok l
          | _ =>
              match VOC.pyGet d "data" with
              | some (.pydict d2) =>
                  if VOC.hasKey d2 "children" then
                    childrenPosts (VOC.pyGetD d2 "children" (.pylist []))
                  else .ok []
              | _ => .ok []
  | .pylist l => .ok l
  | _ => .ok []

/-- `_validate_batch_prescore_response` item check: a dict carrying the
three required keys, an int-like `post_index` and a numeric
`relevance_score`. -/
def validatePrescoreItem (item : VOC.PyVal) : Bool :=
  match item with
  | .pydict kvs =>
      VOC.hasKey kvs "post_index" && VOC.hasKey kvs "relevance_score" &&
      VOC.hasKey kvs "quick_reason" &&
      VOC.pyIsIntLike (VOC.pyGetD kvs "post_index" .none) &&
      VOC.pyIsNumeric (VOC.pyGetD kvs "relevance_score" .none)
  | _ => false

/-- `_validate_batch_prescore_response`: the response must be a list of
valid items.  A count different from `expected_count` only logs a warning
in the source — it does not fail validation. -/
def validate_batch_prescore_response (parsed : VOC.PyVal) (expected_count : Nat) : Bool :=
  match parsed, expected_count with
  | .pylist items, _ => items.all validatePrescoreItem
  | _, _ => false

/-- The low-score record kept in `rejected_low_scores`. -/
structure RejectedScore where
  id : String
  title : String
  subreddit : String
  score : ℚ
  deriving DecidableEq, Repr

def mkRejectedScore (p : CuratedPost) (s : ℚ) : RejectedScore :=
  { id := p.id
    title := VOC.pyTake p.title 80
    subreddit := p.subreddit
    score := VOC.pyRound1 s }

/-- The score-matching loop of `_batch_prescore_posts`: each response item
whose `post_index` is in range contributes `(posts[post_index],
float(relevance_score))`.  Items reaching this loop have already been
validated, so the non-dict / non-int guards are unreachable there. -/
def prescoreMatchItem (posts : List CuratedPost) (item : VOC.PyVal) :
    Option (CuratedPost × ℚ) :=
  match item with
  | .pydict kvs =>
      match VOC.pyGet kvs "post_index" with
      | some v =>
          if VOC.pyIsNone v ∨ ¬ VOC.pyIsIntLike v then Option.none
          else
            if h : 0 ≤ VOC.pyToInt v ∧ (VOC.pyToInt v).toNat < posts.length then
              some (posts.get ⟨(VOC.pyToInt v).toNat, h.2⟩,
                VOC.pyToQ (VOC.pyGetD kvs "relevance_score" (.pyfloat 5)))
            else Option.none
      | Option.none => Option.none
  | _ => Option.none

def prescoreMatch (posts : List CuratedPost) (items : List VOC.PyVal) :
    List (CuratedPost × ℚ) :=
  items.filterMap (prescoreMatchItem posts)

/-- `_batch_prescore_posts` (voc_discovery.py lines 344-439).  The model
response is `Option.none` for any of: no Gemini client, a raised call,
an empty response text, or unparsable JSON — each of which makes the whole
batch fall back to the uniform neutral score 5.0.  On a validated response
the matched scores are sorted descending (stably) and sub-6.0 entries are
recorded as rejected. -/
def batch_prescore_posts (posts : List CuratedPost) (modelResponse : Option VOC.PyVal) :
    List (CuratedPost × ℚ) × List RejectedScore :=
  if posts.isEmpty then ([], [])
  else
    match modelResponse with
    | Option.none => (posts.map (fun p => (p, (5 : ℚ))), [])
    | some parsed =>
        if validate_batch_prescore_response parsed posts.length then
          let items := match parsed with | .pylist xs => xs | _ => []
          let scored := VOC.sortDescBy (fun x => x.2) (prescoreMatch posts items)
          (scored,
           scored.filterMap fun x =>
             if x.2 < 6 then some (mkRejectedScore x.1 x.2) else Option.none)
        else (posts.map (fun p => (p, (5 : ℚ))), [])

end VOC.Discovery

namespace VOC.Collector

/-! Embedding of `voc_reddit.RedditDataCollector` (`_fetch_subreddit`
payload handling and `fetch_posts`). -/

/-- A raw post with the fields `RedditDataCollector.fetch_posts` reads. -/
structure CRawPost where
  id : Option String
  post_id : Option String
  score : Option Int
  num_comments : Option Int
  title : String
  url : Option String
  permalink : Option String
  created_utc : Option Int
  selftext : Option String
  deriving DecidableEq, Repr

/-- `str(post.get("id") or post.get("post_id") or "")`. -/
def cPostId (p : CRawPost) : String :=
  VOC.orStrOpt p.id (VOC.orStrOpt p.post_id "")

/-- The curated dict appended by `RedditDataCollector.fetch_posts`. -/
structure CCuratedPost where
  id : String
  title : String
  url : Option String
  permalink : Option String
  created_utc : Option Int
  score : Int
  num_comments : Int
  subreddit : String
  content_snippet : String
  deriving DecidableEq, Repr

def cCurate (sub : String) (p : CRawPost) : CCuratedPost :=
  { id := cPostId p
    title := p.title
    url := p.url
    permalink := p.permalink
    created_utc := p.created_utc
    score := p.score.getD 0
    num_comments := p.num_comments.getD 0
    subreddit := sub
    content_snippet := p.selftext.getD "" }

/-- The skip chain of the collector's loop: empty/known id, then
`int(post.get("score", 0))` and `int(post.get("num_comments", 0))` against
the thresholds. -/
def cPasses (filters : VOC.Discovery.RedditFilters) (processed : List String)
    (p : CRawPost) : Bool :=
  let pid := cPostId p
  if pid = "" ∨ pid ∈ processed then false
  else if p.score.getD 0 < filters.min_score then false
  else if p.num_comments.getD 0 < filters.min_comments then false
  else true

/-- `RedditDataCollector._fetch_subreddit` payload handling
(voc_reddit.py lines 181-234): only the `data` list and `posts` list
shapes are recognised; every other payload (including a bare array)
yields the empty list. -/
def collectorNormalizePayload (payload : VOC.PyVal) : List VOC.PyVal :=
  match payload with
  | .pydict d =>
      match VOC.pyGet d "data" with
      | some (.pylist l) => l
      | _ =>
          match VOC.pyGet d "posts" with
          | some (.pylist l) => l
          | _ => []
  | _ => []

/-- The candidate posts one subreddit contributes in the collector. -/
def collectorContribution (filters : VOC.Discovery.RedditFilters) (processed : List String)
    (sf : String × Except Unit (List CRawPost)) : List CCuratedPost :=
  match sf.2 with
  | .error _ => []
  | .ok raw => (raw.filter (cPasses filters processed)).map (cCurate sf.1)

/-- `RedditDataCollector.fetch_posts` (voc_reddit.py lines 239-360) given
the loaded history set and per-subreddit outcomes: per-subreddit failures
are warnings, survivors are curated and finally sorted by score
descending.  This variant does not mark history. -/
def collector_fetch_posts (filters : VOC.Discovery.RedditFilters)
    (processed : List String)
    (fetches : List (String × Except Unit (List CRawPost))) :
    List CCuratedPost × List String :=
  let r := List.foldl
    (fun acc sf =>
      match sf.2 with
      | .error _ => (acc.1, acc.2 ++ ["Failed to fetch subreddit " ++ sf.1])
      | .ok raw =>
          (acc.1 ++ (raw.filter (cPasses filters processed)).map (cCurate sf.1), acc.2))
    (([], []) : List CCuratedPost × List String) fetches
  (VOC.sortDescBy (fun c => (c.score : ℚ)) r.1, r.2)

end VOC.Collector

namespace VOC.Synthesis

/-! Embedding of `voc_synthesis.filter_high_value_posts` and
`generate_curated_queries` (both module variants). -/

/-- An enriched post as produced by the enrichment stage: per the data
model, `ai_analysis` is either absent or the dict stored from a validated
model response (`enrich_post` / `get_post_details_and_score` only ever
store dicts). -/
structure SPost where
  id : String
  title : String
  subreddit : String
  ai_analysis : Option (List (String × VOC.PyVal))

/-- `(post.get("ai_analysis") or {}).get("relevance_score")` followed by
the `isinstance(score, (int, float))` test: the numeric value accepted by
the filter, if any. -/
def sPostScore (p : SPost) : Option ℚ :=
  match VOC.pyGet (p.ai_analysis.getD []) "relevance_score" with
  | some v => if VOC.pyIsNumeric v then some (VOC.pyToQ v) else Option.none
  | Option.none => Option.none

/-- The acceptance test of `filter_high_value_posts`. -/
def hvAccept (min_score : ℚ) (p : SPost) : Bool :=
  match sPostScore p with
  | some q => min_score ≤ q
  | Option.none => false

/-- `filter_high_value_posts` (voc_synthesis.py lines 601-638): each post
goes to `accepted` when its numeric relevance score meets the threshold and
to `rejected` otherwise; the loop in order is the pair of filters. -/
def filter_high_value_posts (posts : List SPost) (min_score : ℚ) :
    List SPost × List SPost :=
  (posts.filter (hvAccept min_score), posts.filter (fun p => ! hvAccept min_score p))

/-- One pain-point line of `generate_curated_queries`.  On this typed
domain `ai_analysis` is always a dict after `or {}`, so the
`isinstance(..., dict)` guard never skips and every post renders a line. -/
def painPointLine (p : SPost) : String :=
  let analysis := p.ai_analysis.getD []
  let pain := VOC.pyOr (VOC.pyGetD analysis "identified_pain_point" .none)
    (.pystr "(pain point unavailable)")
  match VOC.pyGet analysis "relevance_score" with
  | some v =>
      if VOC.pyIsNone v then
        "- " ++ VOC.pyStrOf pain ++ " — r/" ++ p.subreddit ++ " | " ++ p.title
      else
        "- " ++ VOC.pyStrOf pain ++ " (relevance " ++ VOC.pyStrOf v ++ ") — r/" ++
          p.subreddit ++ " | " ++ p.title
  | Option.none => "- " ++ VOC.pyStrOf pain ++ " — r/" ++ p.subreddit ++ " | " ++ p.title

def painPointLines (posts : List SPost) : List String := posts.map painPointLine

/-- A trend signal as read by the query synthesiser: the keyword (skipped
when falsy) and the `related_queries.rising` entries. -/
structure TrendSignalLite where
  query : String
  related_queries_rising : List VOC.PyVal

/-- One trends line: the first three rising dict entries with truthy
`query` values joined, else the steady-interest line. -/
def trendLine (t : TrendSignalLite) : Option String :=
  if t.query = "" then Option.none
  else
    let rising_terms := String.intercalate ", "
      ((t.related_queries_rising.take 3).filterMap fun item =>
        match item with
        | .pydict kvs =>
            if VOC.pyTruthy (VOC.pyGetD kvs "query" .none) then
              some (VOC.pyStrOf (VOC.pyGetD kvs "query" .none))
            else Option.none
        | _ => Option.none)
    if rising_terms = "" then some ("- " ++ t.query ++ ": steady interest over time")
    else some ("- " ++ t.query ++ ": rising searches include " ++ rising_terms)

def trendsLines (trends : List TrendSignalLite) : List String :=
  trends.filterMap trendLine

/-- Outcome of the curated-queries Gemini call in the voc_discovery
variant; JSON-parse failures are caught by the same `except` as a raised
call. -/
inductive CQOutcome where
  | templateError
  | callError
  | emptyText
  | parsed (v : VOC.PyVal)

/-- Result triple: queries, warnings, and whether the model was called. -/
structure CQResult where
  queries : List String
  warnings : List String
  calledModel : Bool

/-- `[str(item).strip() for item in parsed if str(item).strip()]`. -/
def cleanQueries (xs : List VOC.PyVal) : List String :=
  (xs.map (fun v => VOC.pyStrip (VOC.pyStrOf v))).filter (fun s => s ≠ "")

/-- `voc_discovery.generate_curated_queries` (lines 738-831): a missing
Gemini client returns a warning before anything is rendered; empty
rendered summaries short-circuit to `([], [])` with no model call;
otherwise the response is parsed as a list of query strings. -/
def generate_curated_queries_discovery (clientAvailable : Bool)
    (analyzed : List SPost) (trends : List TrendSignalLite)
    (outcome : CQOutcome) : CQResult :=
  if ¬ clientAvailable then
    ⟨[], ["GEMINI_API_KEY missing; unable to generate curated queries."], false⟩
  else
    let painLines := painPointLines analyzed
    let tLines := trendsLines trends
    if painLines.isEmpty && tLines.isEmpty then ⟨[], [], false⟩
    else
      match outcome with
      | .templateError => ⟨[], ["Failed to load curated queries prompt."], false⟩
      | .callError => ⟨[], ["Gemini curated query generation failed."], true⟩
      | .emptyText => ⟨[], [], true⟩
      | .parsed v =>
          match v with
          | .pylist xs => ⟨cleanQueries xs, [], true⟩
          | _ => ⟨[], ["Gemini returned unexpected structure for curated queries generation."],
                  true⟩

/-- Outcome of the curated-queries call in the voc_synthesis variant
(the Gemini client there is a required argument). -/
inductive CQOutcomeS where
  | raisedError
  | parsed (v : VOC.PyVal)

/-- `voc_synthesis.generate_curated_queries` (lines 641-750): same
rendering and short-circuit; the response may also be a dict with a
`queries` list. -/
def generate_curated_queries_synthesis (analyzed : List SPost)
    (trends : List TrendSignalLite) (outcome : CQOutcomeS) : CQResult :=
  let painLines := painPointLines analyzed
  let tLines := trendsLines trends
  if painLines.isEmpty && tLines.isEmpty then ⟨[], [], false⟩
  else
    match outcome with
    | .raisedError => ⟨[], ["Gemini curated query generation failed."], true⟩
    | .parsed v =>
        match v with
        | .pylist xs => ⟨cleanQueries xs, [], true⟩
        | .pydict kvs =>
            match VOC.pyGet kvs "queries" with
            | some (.pylist xs) => ⟨cleanQueries xs, [], true⟩
            | _ => ⟨[], ["Gemini returned unexpected structure for curated queries generation."],
                    true⟩
        | _ => ⟨[], ["Gemini returned unexpected structure for curated queries generation."],
                true⟩

end VOC.Synthesis

namespace VOC.Trends

/-! Embedding of `voc_trends.fetch_google_trends`. -/

/-- One flattened dataframe record. -/
abbrev TRec := List (String × VOC.PyVal)

/-- The data one successful pytrends round-trip yields for a keyword. -/
structure TrendFetchData where
  interest : List TRec
  rq_top : List TRec
  rq_rising : List TRec
  rt_top : List TRec
  rt_rising : List TRec

/-- The structurally-empty check (`not has_interest_data and not
has_related_queries and not has_related_topics`). -/
def isEmptyTrendData (d : TrendFetchData) : Bool :=
  d.interest.isEmpty && d.rq_top.isEmpty && d.rq_rising.isEmpty &&
  d.rt_top.isEmpty && d.rt_rising.isEmpty

/-- The trend signal dict appended to `curated_trends`. -/
structure TrendSignalFull where
  query : String
  comparison_keyword : Option String
  interest_over_time : List TRec
  related_queries_top : List TRec
  related_queries_rising : List TRec
  related_topics_top : List TRec
  related_topics_rising : List TRec

def mkTrendSignal (kw : String) (cmp : Option String) (d : TrendFetchData) :
    TrendSignalFull :=
  { query := kw
    comparison_keyword := cmp
    interest_over_time := d.interest
    related_queries_top := d.rq_top
    related_queries_rising := d.rq_rising
    related_topics_top := d.rt_top
    related_topics_rising := d.rt_rising }

def emptyDataWarning (kw : String) : String :=
  "Google Trends returned no data for " ++ kw ++
    " - possible rate limit or no search volume"

def failWarning (kw : String) : String :=
  "Google Trends lookup failed for " ++ kw ++ " after 3 attempts"

/-- Walk the attempt oracle from `start` for at most `fuel` attempts and
return the first success (`Option.none` models a raised lookup). -/
def firstSuccessWithin (oracle : Nat → Option TrendFetchData) :
    Nat → Nat → Option (Nat × TrendFetchData)
  | _, 0 => Option.none
  | start, fuel + 1 =>
      match oracle start with
      | some d => some (start, d)
      | Option.none => firstSuccessWithin oracle (start + 1) fuel

/-- The retry loop: `max_retries = 3` attempts per keyword. -/
def tryKeyword (oracle : Nat → Option TrendFetchData) : Option (Nat × TrendFetchData) :=
  firstSuccessWithin oracle 0 3

/-- One keyword's contribution: a signal on any in-budget success, plus the
structurally-empty warning when the data is empty; exactly one warning when
all three attempts fail.  Intermediate retry failures only reach the
logger, never the returned warnings. -/
def processKeyword (kw : String) (cmp : Option String)
    (oracle : Nat → Option TrendFetchData) :
    Option TrendSignalFull × List String :=
  match tryKeyword oracle with
  | Option.none => (Option.none, [failWarning kw])
  | some (_, d) =>
      (some (mkTrendSignal kw cmp d),
       if isEmptyTrendData d then [emptyDataWarning kw] else [])

/-- `voc_trends.fetch_google_trends` (lines 56-219): no keywords is an
early warning return; otherwise every keyword is processed and the run
escalates to an error exactly when no keyword produced a signal. -/
def fetch_google_trends (keywords : List String) (cmp : Option String)
    (oracle : String → Nat → Option TrendFetchData) :
    Except String (List TrendSignalFull × List String) :=
  if keywords.isEmpty then
    .ok ([], ["No Google Trends keywords configured for this segment."])
  else
    let r := List.foldl
      (fun acc kw =>
        let pk := processKeyword kw cmp (oracle kw)
        (acc.1 ++ pk.1.toList, acc.2 ++ pk.2))
      (([], []) : List TrendSignalFull × List String) keywords
    if r.1.isEmpty then
      .error "Google Trends returned no data for any keywords - likely rate limited or service issue"
    else .ok r

end VOC.Trends

namespace VOC.Merge

/-! Embedding of the override merge in `run_voc_discovery`
(voc_discovery.py lines 967-978), plus the spec's recursive deep-merge for
comparison. -/

/-- The value stored for an override key: dict-valued keys whose base value
is also a dict get `{**base[key], **value}` (a one-level update), anything
else replaces wholesale. -/
def mergeValue (v : VOC.PyVal) (b : Option VOC.PyVal) : VOC.PyVal :=
  match v, b with
  | .pydict od, some (.pydict bd) =>
      .pydict (od.foldl (fun acc kv => VOC.setKey acc kv.1 kv.2) bd)
  | _, _ => v

/-- `dict(base)` then `updated.update(value)` key by key. -/
def dictUpdate (bd od : List (String × VOC.PyVal)) : List (String × VOC.PyVal) :=
  od.foldl (fun acc kv => VOC.setKey acc kv.1 kv.2) bd

/-- The override merge loop of `run_voc_discovery`. -/
def mergeConfigs (base ov : List (String × VOC.PyVal)) : List (String × VOC.PyVal) :=
  ov.foldl (fun acc kv => VOC.setKey acc kv.1 (mergeValue kv.2 (VOC.pyGet acc kv.1))) base

/-- Modelled from the spec: the recursive deep-merge `run_voc_discovery`
is documented to perform — at every nesting depth a key dict-valued on
both sides merges key by key, scalars and lists replace wholesale.  The
fuel bounds the recursion depth; any fuel at least the nesting depth of
the inputs computes the documented merge. -/
def deepMergeSpec : Nat → List (String × VOC.PyVal) → List (String × VOC.PyVal) →
    List (String × VOC.PyVal)
  | 0, base, ov => ov.foldl (fun acc kv => VOC.setKey acc kv.1 kv.2) base
  | fuel + 1, base, ov =>
      ov.foldl (fun acc kv =>
        match kv.2, VOC.pyGet acc kv.1 with
        | .pydict od, some (.pydict bd) =>
            VOC.setKey acc kv.1 (.pydict (deepMergeSpec fuel bd od))
        | _, _ => VOC.setKey acc kv.1 kv.2) base

/-- Lookup along a key path through nested dicts. -/
def pathLookup (d : List (String × VOC.PyVal)) : List String → Option VOC.PyVal
  | [] => some (.pydict d)
  | [k] => VOC.pyGet d k
  | k :: ks =>
      match VOC.pyGet d k with
      | some (.pydict d2) => pathLookup d2 ks
      | _ => Option.none

end VOC.Merge

namespace VOC.Discovery

/-! Concrete sample data used by witnesses and counterexamples. -/

def sampleFilters : RedditFilters :=
  { min_score := 10, min_comments := 2, time_range := "month", sort := "top" }

def samplePostA : RawPost :=
  { id := "abc", ups := some 50, score := Option.none, num_comments := some 9
    title := "Post A", subreddit := Option.none, url := Option.none
    full_link := Option.none, selftext := Option.none, created_utc := Option.none
    stickied := Option.none }

def samplePostB : RawPost := { samplePostA with id := "xyz" }

def samplePostLow : RawPost := { samplePostA with id := "low", ups := some 3 }

def sampleState : HistoryState := { cache := ["xyz"], store := Option.none }

/-- A ledger with a reachable, initially empty Firestore collection. -/
def sampleStoreState : HistoryState := { cache := [], store := some [] }

/-- A single-subreddit fetch returning only the passing post `abc`. -/
def sampleFetchesA : List SubredditFetch :=
  [("smallbusiness", Except.ok [samplePostA])]

def sampleFetches : List SubredditFetch :=
  [("smallbusiness", Except.ok [samplePostA, samplePostB, samplePostLow])]

def sampleCuratedA : CuratedPost := curatePost "smallbusiness" samplePostA

def prescorePost0 : CuratedPost :=
  { id := "p0", title := "T0", subreddit := "smallbusiness", score := 42
    num_comments := 8, url := Option.none, content_snippet := ""
    created_utc := 0, stickied := false }

def prescorePost1 : CuratedPost := { prescorePost0 with id := "p1", title := "T1" }

/-- The items of a structurally valid one-item prescore response. -/
def prescoreShortItems : List VOC.PyVal :=
  [.pydict [("post_index", .pyint 0), ("relevance_score", .pyint 7),
    ("quick_reason", .pystr "ok")]]

/-- A structurally valid one-item prescore response for a two-post batch. -/
def prescoreShortResponse : VOC.PyVal := .pylist prescoreShortItems

end VOC.Discovery

namespace VOC.Collector

def sampleCPost : CRawPost :=
  { id := some "c1", post_id := Option.none, score := some 40, num_comments := some 7
    title := "C post", url := Option.none, permalink := Option.none
    created_utc := Option.none, selftext := Option.none }

def sampleCFetches : List (String × Except Unit (List CRawPost)) :=
  [("startups", Except.ok [sampleCPost])]

end VOC.Collector

namespace VOC.Synthesis

def sPostHigh : SPost :=
  { id := "s1", title := "T", subreddit := "r"
    ai_analysis := some [("relevance_score", .pyint 8),
      ("identified_pain_point", .pystr "hiring")] }

def sPostNone : SPost :=
  { id := "s2", title := "U", subreddit := "r", ai_analysis := Option.none }

def sPostBad : SPost :=
  { id := "s3", title := "V", subreddit := "r"
    ai_analysis := some [("relevance_score", .pystr "high")] }

end VOC.Synthesis

namespace VOC.Trends

def sampleTrendData : TrendFetchData :=
  { interest := [[("date", .pystr "2025-01-01"), ("primary_interest", .pyint 50)]]
    rq_top := [], rq_rising := [], rt_top := [], rt_rising := [] }

/-- An attempt oracle that fails twice and succeeds on the third attempt. -/
def thirdTryOracle : Nat → Option TrendFetchData :=
  fun n => if n = 2 then some sampleTrendData else Option.none

/-- A keyword oracle where keyword `a` always fails and keyword `b`
succeeds immediately. -/
def twoKeywordOracle : String → Nat → Option TrendFetchData :=
  fun kw n => if kw = "b" ∧ n = 0 then some sampleTrendData else Option.none

end VOC.Trends

namespace VOC.Merge

def mergeBaseSample : List (String × VOC.PyVal) :=
  [("a", .pydict [("b", .pydict [("x", .pyint 1), ("y", .pyint 2)])])]

def mergeOvSample : List (String × VOC.PyVal) :=
  [("a", .pydict [("b", .pydict [("x", .pyint 9)])])]

end VOC.Merge

/-! ## Theorems -/

namespace VOC

theorem insertDescBy_perm (key : α → ℚ) (x : α) (l : List α) :
    List.Perm (insertDescBy key x l) (x :: l) := by
  induction l with
  | nil => simp [insertDescBy]
  | cons y ys ih =>
      by_cases h : key y < key x
      · simp [insertDescBy, h]
      · simp only [insertDescBy, h, if_false]
        exact (ih.cons y).trans (List.Perm.swap x y ys)

theorem sortDescBy_perm (key : α → ℚ) (l : List α) :
    List.Perm (sortDescBy key l) l := by
  suffices h : ∀ (l : List α) (acc : List α),
      List.Perm (l.foldl (fun acc x => insertDescBy key x acc) acc) (acc ++ l) by
    simpa using h l []
  intro l
  induction l with
  | nil => intro acc; simp
  | cons x xs ih =>
      intro acc
      have p1 := ih (insertDescBy key x acc)
      have p2 : List.Perm (insertDescBy key x acc ++ xs) ((x :: acc) ++ xs) :=
        (insertDescBy_perm key x acc).append_right xs
      have p3 : List.Perm ((x :: acc) ++ xs) (acc ++ x :: xs) := by
        have hm : List.Perm (x :: (acc ++ xs)) (acc ++ x :: xs) :=
          List.perm_middle.symm
        simpa using hm
      exact (p1.trans (p2.trans p3))

theorem mem_sortDescBy (key : α → ℚ) (l : List α) (a : α) :
    a ∈ sortDescBy key l ↔ a ∈ l :=
  (sortDescBy_perm key l).mem_iff

theorem length_sortDescBy (key : α → ℚ) (l : List α) :
    (sortDescBy key l).length = l.length :=
  (sortDescBy_perm key l).length_eq

end VOC

namespace VOC.Discovery

theorem postPasses_iff (filters : RedditFilters) (pr : List String) (p : RawPost) :
    postPasses filters pr p = true ↔
      VOC.pyStrip p.id ≠ "" ∧ VOC.pyStrip p.id ∉ pr ∧ filters.min_score ≤ effScore p ∧
        filters.min_comments ≤ effComments p := by
  simp only [postPasses]
  split_ifs with h1 h2
  · simp only [Bool.false_eq_true, false_iff]
    rintro ⟨hne, hnm, -, -⟩
    rcases h1 with h | h
    · exact hne h
    · exact hnm h
  · simp only [Bool.false_eq_true, false_iff]
    rintro ⟨-, -, hs, hc⟩
    rcases h2 with h | h
    · exact absurd hs (not_le.mpr h)
    · exact absurd hc (not_le.mpr h)
  · push_neg at h1 h2
    simp only [true_iff]
    exact ⟨h1.1, h1.2, h2.1, h2.2⟩

theorem fetch_foldl_fst (filters : RedditFilters) (pr : List String)
    (fs : List SubredditFetch) :
    ∀ acc : List CuratedPost × List String,
      (List.foldl
        (fun acc sf =>
          match sf.2 with
          | .error _ => (acc.1, acc.2 ++ ["Failed to fetch subreddit " ++ sf.1])
          | .ok raw =>
              (acc.1 ++ (raw.filter (postPasses filters pr)).map (curatePost sf.1), acc.2))
        acc fs).1
      = acc.1 ++ fs.flatMap (subredditContribution filters pr) := by
  induction fs with
  | nil => intro acc; simp
  | cons sf fs ih =>
      intro acc
      obtain ⟨sub, res⟩ := sf
      cases res with
      | error e =>
          simp only [List.foldl_cons, List.flatMap_cons, subredditContribution,
            List.nil_append]
          exact ih _
      | ok raw =>
          simp only [List.foldl_cons, List.flatMap_cons, subredditContribution]
          exact (ih _).trans (List.append_assoc _ _ _)

theorem fetch_reddit_posts_fst (filters : RedditFilters) (pr : List String)
    (fs : List SubredditFetch) :
    (fetch_reddit_posts filters pr fs).1 = fs.flatMap (subredditContribution filters pr) := by
  simpa using fetch_foldl_fst filters pr fs ([], [])

theorem mem_fetch_reddit_posts {filters : RedditFilters} {pr : List String}
    {fs : List SubredditFetch} {c : CuratedPost} :
    c ∈ (fetch_reddit_posts filters pr fs).1 ↔
      ∃ sub raw p, (sub, Except.ok raw) ∈ fs ∧ p ∈ raw ∧
        postPasses filters pr p = true ∧ c = curatePost sub p := by
  rw [fetch_reddit_posts_fst, List.mem_flatMap]
  constructor
  · rintro ⟨sf, hsf, hc⟩
    obtain ⟨sub, res⟩ := sf
    cases res with
    | error e => simp [subredditContribution] at hc
    | ok raw =>
        simp only [subredditContribution, List.mem_map, List.mem_filter] at hc
        obtain ⟨p, ⟨hp, hpass⟩, hcp⟩ := hc
        exact ⟨sub, raw, p, hsf, hp, hpass, hcp.symm⟩
  · rintro ⟨sub, raw, p, hmem, hp, hpass, rfl⟩
    refine ⟨(sub, .ok raw), hmem, ?_⟩
    simp only [subredditContribution, List.mem_map, List.mem_filter]
    exact ⟨p, ⟨hp, hpass⟩, rfl⟩

end VOC.Discovery

namespace VOC

theorem isEmpty_false_of_mem {l : List α} {a : α} (h : a ∈ l) : l.isEmpty = false := by
  cases l with
  | nil => exact absurd h (List.not_mem_nil a)
  | cons x xs => rfl

end VOC

namespace VOC.Discovery

theorem mark_cache_mem {st : HistoryState} {co : Bool} {ids : List String} {id : String}
    (h : id ∈ ids) (hne : id ≠ "") : id ∈ (markPostsProcessed st co ids).cache := by
  have hk : id ∈ ids.filter (fun i => i ≠ "") :=
    List.mem_filter.mpr ⟨h, by simpa using hne⟩
  cases hfk : ids.filter (fun i => i ≠ "") with
  | nil => rw [hfk] at hk; exact absurd hk (List.not_mem_nil id)
  | cons a as =>
      rw [hfk] at hk
      simp only [markPostsProcessed, hfk]
      exact List.mem_append_right _ hk

theorem mark_store_mem {st : HistoryState} {ids : List String} {id : String}
    {s : List String} (h : id ∈ ids) (hne : id ≠ "")
    (hs : (markPostsProcessed st true ids).store = some s) : id ∈ s := by
  have hk : id ∈ ids.filter (fun i => i ≠ "") :=
    List.mem_filter.mpr ⟨h, by simpa using hne⟩
  cases hfk : ids.filter (fun i => i ≠ "") with
  | nil => rw [hfk] at hk; exact absurd hk (List.not_mem_nil id)
  | cons a as =>
      rw [hfk] at hk
      simp only [markPostsProcessed, hfk, if_true] at hs
      obtain ⟨cache, store⟩ := st
      cases store with
      | none => simp at hs
      | some s0 =>
          simp only [Option.map_some] at hs
          obtain rfl : s0 ++ a :: as = s := Option.some.inj hs
          exact List.mem_append_right _ hk

theorem idMarked_mark_of_mem {st : HistoryState} {ids : List String} {id : String}
    (h : id ∈ ids) (hne : id ≠ "") : idMarked (markPostsProcessed st true ids) id :=
  ⟨mark_cache_mem h hne, fun _ hs => mark_store_mem h hne hs⟩

theorem idMarked_mark_mono {st : HistoryState} {co : Bool} {ids : List String}
    {x : String} (h : idMarked st x) : idMarked (markPostsProcessed st co ids) x := by
  cases hfk : ids.filter (fun i => i ≠ "") with
  | nil => simpa only [markPostsProcessed, hfk] using h
  | cons a as =>
      obtain ⟨cache, store⟩ := st
      obtain ⟨hc, hst⟩ := h
      simp only [markPostsProcessed, hfk]
      refine ⟨List.mem_append_left _ hc, ?_⟩
      intro s hs
      cases co with
      | false =>
          simp only [if_false, Bool.false_eq_true] at hs
          exact hst s hs
      | true =>
          simp only [if_true] at hs
          cases store with
          | none => simp at hs
          | some s0 =>
              obtain rfl : s0 ++ a :: as = s := by simpa using hs
              exact List.mem_append_left _ (hst s0 rfl)

theorem idMarked_load_snd {lo : Bool} {st : HistoryState} {x : String}
    (h : idMarked st x) : idMarked (loadProcessedPostIds lo st).2 x := by
  obtain ⟨cache, store⟩ := st
  obtain ⟨hc, hst⟩ := h
  cases store with
  | none => exact ⟨hc, hst⟩
  | some s0 =>
      cases lo with
      | false =>
          simp only [loadProcessedPostIds, if_false, Bool.false_eq_true]
          exact ⟨hc, hst⟩
      | true =>
          simp only [loadProcessedPostIds, if_true]
          exact ⟨hst s0 rfl, fun s hs => by
            obtain rfl : s0 = s := Option.some.inj hs
            exact hst s0 rfl⟩

theorem idMarked_mem_loaded {lo : Bool} {st : HistoryState} {x : String}
    (h : idMarked st x) : x ∈ (loadProcessedPostIds lo st).1 := by
  obtain ⟨cache, store⟩ := st
  obtain ⟨hc, hst⟩ := h
  cases store with
  | none => exact hc
  | some s0 =>
      cases lo with
      | false => simpa only [loadProcessedPostIds, if_false, Bool.false_eq_true] using hc
      | true => simpa only [loadProcessedPostIds, if_true] using hst s0 rfl

theorem mem_runFetch_posts {filters : RedditFilters} {lo co : Bool}
    {st : HistoryState} {fs : List SubredditFetch} {c : CuratedPost}
    (h : c ∈ (runFetch filters lo co st fs).posts) :
    c.id ≠ "" ∧ c.id ∉ (loadProcessedPostIds lo st).1 ∧
      filters.min_score ≤ c.score ∧ filters.min_comments ≤ c.num_comments := by
  have h2 : c ∈ (fetch_reddit_posts filters (loadProcessedPostIds lo st).1 fs).1 := h
  obtain ⟨sub, raw, p, hmem, hp, hpass, rfl⟩ := mem_fetch_reddit_posts.mp h2
  have hprops := (postPasses_iff filters (loadProcessedPostIds lo st).1 p).mp hpass
  exact ⟨hprops.1, hprops.2.1, hprops.2.2.1, hprops.2.2.2⟩

theorem runFetch_posts_cache {filters : RedditFilters} {lo co : Bool}
    {st : HistoryState} {fs : List SubredditFetch} {c : CuratedPost}
    (h : c ∈ (runFetch filters lo co st fs).posts) :
    c.id ∈ (runFetch filters lo co st fs).state.cache := by
  have hid : c.id ≠ "" := (mem_runFetch_posts h).1
  exact mark_cache_mem (List.mem_map_of_mem _ h) hid

theorem runFetch_posts_marked {filters : RedditFilters} {lo : Bool}
    {st : HistoryState} {fs : List SubredditFetch} {c : CuratedPost}
    (h : c ∈ (runFetch filters lo true st fs).posts) :
    idMarked (runFetch filters lo true st fs).state c.id := by
  have hid : c.id ≠ "" := (mem_runFetch_posts h).1
  exact idMarked_mark_of_mem (List.mem_map_of_mem _ h) hid

theorem runFetch_preserves_marked {filters : RedditFilters} {lo co : Bool}
    {st : HistoryState} {fs : List SubredditFetch} {x : String}
    (h : idMarked st x) : idMarked (runFetch filters lo co st fs).state x :=
  idMarked_mark_mono (idMarked_load_snd h)

theorem runFetch_excl_marked {filters : RedditFilters} {lo co : Bool}
    {st : HistoryState} {fs : List SubredditFetch} {x : String} {c : CuratedPost}
    (hm : idMarked st x) (hc : c ∈ (runFetch filters lo co st fs).posts) :
    c.id ≠ x := by
  intro he
  exact (mem_runFetch_posts hc).2.1 (he ▸ idMarked_mem_loaded hm)

theorem fetchRuns_out_excl_marked {filters : RedditFilters} :
    ∀ {fss : List RunInput} {st : HistoryState} {out : List CuratedPost}
      {c : CuratedPost} {x : String},
      idMarked st x → out ∈ (fetchRuns filters st fss).1 → c ∈ out → c.id ≠ x := by
  intro fss
  induction fss with
  | nil => intro st out c x hm hout; simp [fetchRuns] at hout
  | cons ri rest ih =>
      intro st out c x hm hout hc
      simp only [fetchRuns, List.mem_cons] at hout
      rcases hout with rfl | hout
      · exact runFetch_excl_marked hm hc
      · exact ih (runFetch_preserves_marked hm) hout hc

theorem fetchRuns_pairwise (filters : RedditFilters) :
    ∀ (fss : List RunInput) (st : HistoryState),
      (∀ ri ∈ fss, ri.2.1 = true) →
      List.Pairwise (fun o1 o2 => ∀ c ∈ o2, ∀ d ∈ o1, c.id ≠ d.id)
        (fetchRuns filters st fss).1 := by
  intro fss
  induction fss with
  | nil => intro st hflags; simp [fetchRuns]
  | cons ri rest ih =>
      intro st hflags
      obtain ⟨lo, co, fsH⟩ := ri
      obtain rfl : co = true := hflags (lo, co, fsH) (List.mem_cons_self _ _)
      simp only [fetchRuns]
      refine List.Pairwise.cons ?_ (ih _ (fun r hr => hflags r (List.Mem.tail _ hr)))
      intro o2 ho2 c hc d hd
      exact fetchRuns_out_excl_marked (runFetch_posts_marked hd) ho2 hc

theorem fetch_posts_bounds {filters : RedditFilters} {pr : List String}
    {fs : List SubredditFetch} {c : CuratedPost}
    (h : c ∈ (fetch_reddit_posts filters pr fs).1) :
    filters.min_score ≤ c.score ∧ filters.min_comments ≤ c.num_comments := by
  obtain ⟨sub, raw, p, hmem, hp, hpass, rfl⟩ := mem_fetch_reddit_posts.mp h
  have hprops := (postPasses_iff filters pr p).mp hpass
  exact ⟨hprops.2.2.1, hprops.2.2.2⟩

end VOC.Discovery

namespace VOC.Collector

theorem cPasses_iff (filters : VOC.Discovery.RedditFilters) (pr : List String)
    (p : CRawPost) :
    cPasses filters pr p = true ↔
      cPostId p ≠ "" ∧ cPostId p ∉ pr ∧ filters.min_score ≤ p.score.getD 0 ∧
        filters.min_comments ≤ p.num_comments.getD 0 := by
  simp only [cPasses]
  split_ifs with h1 h2 h3
  · simp only [Bool.false_eq_true, false_iff]
    rintro ⟨hne, hnm, -, -⟩
    rcases h1 with h | h
    · exact hne h
    · exact hnm h
  · simp only [Bool.false_eq_true, false_iff]
    rintro ⟨-, -, hs, -⟩
    exact absurd hs (not_le.mpr h2)
  · simp only [Bool.false_eq_true, false_iff]
    rintro ⟨-, -, -, hc⟩
    exact absurd hc (not_le.mpr h3)
  · push_neg at h1
    simp only [true_iff]
    exact ⟨h1.1, h1.2, not_lt.mp h2, not_lt.mp h3⟩

theorem collector_foldl_fst (filters : VOC.Discovery.RedditFilters) (pr : List String)
    (cfs : List (String × Except Unit (List CRawPost))) :
    ∀ acc : List CCuratedPost × List String,
      (List.foldl
        (fun acc sf =>
          match sf.2 with
          | .error _ => (acc.1, acc.2 ++ ["Failed to fetch subreddit " ++ sf.1])
          | .ok raw =>
              (acc.1 ++ (raw.filter (cPasses filters pr)).map (cCurate sf.1), acc.2))
        acc cfs).1
      = acc.1 ++ cfs.flatMap (collectorContribution filters pr) := by
  induction cfs with
  | nil => intro acc; simp
  | cons sf fs ih =>
      intro acc
      obtain ⟨sub, res⟩ := sf
      cases res with
      | error e =>
          simp only [List.foldl_cons, List.flatMap_cons, collectorContribution,
            List.nil_append]
          exact ih _
      | ok raw =>
          simp only [List.foldl_cons, List.flatMap_cons, collectorContribution]
          exact (ih _).trans (List.append_assoc _ _ _)

theorem mem_collector_fetch_posts {filters : VOC.Discovery.RedditFilters}
    {pr : List String} {cfs : List (String × Except Unit (List CRawPost))}
    {c : CCuratedPost} :
    c ∈ (collector_fetch_posts filters pr cfs).1 ↔
      ∃ sub raw p, (sub, Except.ok raw) ∈ cfs ∧ p ∈ raw ∧
        cPasses filters pr p = true ∧ c = cCurate sub p := by
  have h1 : (collector_fetch_posts filters pr cfs).1 =
      VOC.sortDescBy (fun c => (c.score : ℚ))
        (cfs.flatMap (collectorContribution filters pr)) := by
    show VOC.sortDescBy _
      (List.foldl _ (([], []) : List CCuratedPost × List String) cfs).1 = _
    rw [collector_foldl_fst filters pr cfs ([], [])]
    rfl
  rw [h1, VOC.mem_sortDescBy, List.mem_flatMap]
  constructor
  · rintro ⟨sf, hsf, hc⟩
    obtain ⟨sub, res⟩ := sf
    cases res with
    | error e => simp [collectorContribution] at hc
    | ok raw =>
        simp only [collectorContribution, List.mem_map, List.mem_filter] at hc
        obtain ⟨p, ⟨hp, hpass⟩, hcp⟩ := hc
        exact ⟨sub, raw, p, hsf, hp, hpass, hcp.symm⟩
  · rintro ⟨sub, raw, p, hmem, hp, hpass, rfl⟩
    refine ⟨(sub, .ok raw), hmem, ?_⟩
    simp only [collectorContribution, List.mem_map, List.mem_filter]
    exact ⟨p, ⟨hp, hpass⟩, rfl⟩

theorem collector_mem_props {filters : VOC.Discovery.RedditFilters}
    {pr : List String} {cfs : List (String × Except Unit (List CRawPost))}
    {c : CCuratedPost} (h : c ∈ (collector_fetch_posts filters pr cfs).1) :
    c.id ≠ "" ∧ c.id ∉ pr ∧ filters.min_score ≤ c.score ∧
      filters.min_comments ≤ c.num_comments := by
  obtain ⟨sub, raw, p, hmem, hp, hpass, rfl⟩ := mem_collector_fetch_posts.mp h
  have hprops := (cPasses_iff filters pr p).mp hpass
  exact ⟨hprops.1, hprops.2.1, hprops.2.2.1, hprops.2.2.2⟩

end VOC.Collector

namespace VOC.Discovery

/-- Counterexample for C1 as stated: with a reachable Firestore collection,
run 1 returns post `abc` and marks it, but the batch commit fails (only a
logged warning); run 2's successful load then overwrites the in-memory
cache with the store contents — which lack `abc` — and the same post is
returned again.  An id marked processed by an earlier run is re-fetched
without any explicit purge. -/
theorem c1_counterexample_lost_mark :
    (runFetch sampleFilters true false sampleStoreState sampleFetchesA).posts =
      [sampleCuratedA] ∧
    (runFetch sampleFilters true true
      (runFetch sampleFilters true false sampleStoreState sampleFetchesA).state
      sampleFetchesA).posts = [sampleCuratedA] := ⟨by decide, by decide⟩

/-- Claim C1 (amended): every post whose id is in the loaded
processed-history set when the fetch runs is excluded from the returned
candidates — in `fetch_reddit_posts` (modelled with its history side
effects by `runFetch`) and in `RedditDataCollector.fetch_posts` — and
across any sequence of runs whose history batch commits all succeed (in
particular always in the in-memory fallback mode), no run returns an id an
earlier run returned; after a failed commit, a subsequent successful load
can drop the id from the cache and the post can be returned again. -/
theorem c1_fetch_excludes_processed_history :
    (∀ (filters : RedditFilters) (loadOk commitOk : Bool) (st : HistoryState)
        (fs : List SubredditFetch) (c : CuratedPost),
        c ∈ (runFetch filters loadOk commitOk st fs).posts →
        c.id ∉ (loadProcessedPostIds loadOk st).1) ∧
    (∀ (filters : RedditFilters) (processed : List String)
        (cfs : List (String × Except Unit (List VOC.Collector.CRawPost)))
        (c : VOC.Collector.CCuratedPost),
        c ∈ (VOC.Collector.collector_fetch_posts filters processed cfs).1 →
          c.id ∉ processed) ∧
    (∀ (filters : RedditFilters) (st : HistoryState) (fss : List RunInput),
        (∀ ri ∈ fss, ri.2.1 = true) →
        List.Pairwise (fun o1 o2 => ∀ c ∈ o2, ∀ d ∈ o1, c.id ≠ d.id)
          (fetchRuns filters st fss).1) := by
  refine ⟨?_, ?_, ?_⟩
  · intro filters loadOk commitOk st fs c h
    exact (mem_runFetch_posts h).2.1
  · intro filters pr cfs c h
    exact (VOC.Collector.collector_mem_props h).2.1
  · intro filters st fss hflags
    exact fetchRuns_pairwise filters fss st hflags

/-- Witness for C1 (amended) at concrete segment states: post `abc` is
returned and absent from the loaded history, the collector candidate
avoids its history, and a commit-succeeding two-run sequence has pairwise
disjoint outputs. -/
theorem c1_fetch_excludes_processed_history_witness :
    sampleCuratedA ∈ (runFetch sampleFilters true true sampleState sampleFetches).posts ∧
    sampleCuratedA.id ∉ (loadProcessedPostIds true sampleState).1 ∧
    VOC.Collector.cCurate "startups" VOC.Collector.sampleCPost ∈
      (VOC.Collector.collector_fetch_posts sampleFilters ["zz"]
        VOC.Collector.sampleCFetches).1 ∧
    (VOC.Collector.cCurate "startups" VOC.Collector.sampleCPost).id ∉ ["zz"] ∧
    List.Pairwise (fun o1 o2 => ∀ c ∈ o2, ∀ d ∈ o1, c.id ≠ d.id)
      (fetchRuns sampleFilters sampleStoreState
        [(true, true, sampleFetchesA), (true, true, sampleFetchesA)]).1 := by
  have h1 : sampleCuratedA ∈
      (runFetch sampleFilters true true sampleState sampleFetches).posts := by decide
  have h2 : VOC.Collector.cCurate "startups" VOC.Collector.sampleCPost ∈
      (VOC.Collector.collector_fetch_posts sampleFilters ["zz"]
        VOC.Collector.sampleCFetches).1 := by decide
  exact ⟨h1,
    c1_fetch_excludes_processed_history.1 sampleFilters true true sampleState
      sampleFetches _ h1,
    h2,
    c1_fetch_excludes_processed_history.2.1 sampleFilters ["zz"]
      VOC.Collector.sampleCFetches _ h2,
    c1_fetch_excludes_processed_history.2.2 sampleFilters sampleStoreState
      [(true, true, sampleFetchesA), (true, true, sampleFetchesA)] (by decide)⟩

/-- Counterexample for C2 as stated: when the batch commit fails, the
returned id reaches only the in-memory cache — the available persistent
store is left without it — and after a later successful load overwrites
the cache, the same candidate is returned by a later run.  "Excluded from
every later run" does not hold on the commit-failure path. -/
theorem c2_counterexample_commit_failure :
    sampleCuratedA ∈
      (runFetch sampleFilters true false sampleStoreState sampleFetchesA).posts ∧
    (runFetch sampleFilters true false sampleStoreState sampleFetchesA).state.store =
      some [] ∧
    sampleCuratedA ∈ (runFetch sampleFilters true true
      (runFetch sampleFilters true false sampleStoreState sampleFetchesA).state
      sampleFetchesA).posts := ⟨by decide, by decide, by decide⟩

/-- Claim C2 (amended): `fetch_reddit_posts` marks every id it is about to
return before returning — into the in-memory cache unconditionally, and
into the persistent store when one is available and the batch commit
succeeds (a failed commit only logs a warning); durably marked ids are
never lost by later loads or marks; and when the marking run's commit
succeeds, a returned candidate is excluded from every later run — whatever
that run's load/commit outcomes — regardless of what happens to the post
downstream. -/
theorem c2_fetch_marks_returned_ids :
    (∀ (filters : RedditFilters) (loadOk commitOk : Bool) (st : HistoryState)
        (fs : List SubredditFetch) (c : CuratedPost),
        c ∈ (runFetch filters loadOk commitOk st fs).posts →
        c.id ∈ (runFetch filters loadOk commitOk st fs).state.cache ∧
        (commitOk = true →
          idMarked (runFetch filters loadOk commitOk st fs).state c.id)) ∧
    (∀ (filters : RedditFilters) (loadOk commitOk : Bool) (st : HistoryState)
        (fs : List SubredditFetch) (x : String),
        idMarked st x → idMarked (runFetch filters loadOk commitOk st fs).state x) ∧
    (∀ (filters : RedditFilters) (loadOk : Bool) (st : HistoryState)
        (fs : List SubredditFetch) (fss : List RunInput) (out : List CuratedPost)
        (c d : CuratedPost),
        out ∈ (fetchRuns filters (runFetch filters loadOk true st fs).state fss).1 →
        c ∈ out → d ∈ (runFetch filters loadOk true st fs).posts → c.id ≠ d.id) := by
  refine ⟨?_, ?_, ?_⟩
  · intro filters loadOk commitOk st fs c h
    refine ⟨runFetch_posts_cache h, ?_⟩
    rintro rfl
    exact runFetch_posts_marked h
  · intro filters loadOk commitOk st fs x h
    exact runFetch_preserves_marked h
  · intro filters loadOk st fs fss out c d hout hc hd
    exact fetchRuns_out_excl_marked (runFetch_posts_marked hd) hout hc

/-- Witness for C2 (amended): after a commit-succeeding run, the returned
id `abc` is in the updated cache and durably marked — in particular in the
persistent store. -/
theorem c2_fetch_marks_returned_ids_witness :
    sampleCuratedA ∈
      (runFetch sampleFilters true true sampleStoreState sampleFetchesA).posts ∧
    sampleCuratedA.id ∈
      (runFetch sampleFilters true true sampleStoreState sampleFetchesA).state.cache ∧
    idMarked (runFetch sampleFilters true true sampleStoreState sampleFetchesA).state
      sampleCuratedA.id := by
  have h1 : sampleCuratedA ∈
      (runFetch sampleFilters true true sampleStoreState sampleFetchesA).posts := by
    decide
  have h2 := c2_fetch_marks_returned_ids.1 sampleFilters true true sampleStoreState
    sampleFetchesA sampleCuratedA h1
  exact ⟨h1, h2.1, h2.2 rfl⟩

/-- Claim C3: a raw post whose effective score is below `min_score` or whose
comment count is below `min_comments` never appears among the returned
candidates — every candidate of `fetch_reddit_posts` and of
`RedditDataCollector.fetch_posts` satisfies both thresholds, and the
curated image of a failing raw post is never in the output. -/
theorem c3_engagement_filter_excludes :
    (∀ (filters : RedditFilters) (pr : List String) (fs : List SubredditFetch)
        (c : CuratedPost), c ∈ (fetch_reddit_posts filters pr fs).1 →
        filters.min_score ≤ c.score ∧ filters.min_comments ≤ c.num_comments) ∧
    (∀ (filters : RedditFilters) (pr : List String) (fs : List SubredditFetch)
        (sub : String) (p : RawPost),
        (effScore p < filters.min_score ∨ effComments p < filters.min_comments) →
        curatePost sub p ∉ (fetch_reddit_posts filters pr fs).1) ∧
    (∀ (filters : RedditFilters) (pr : List String)
        (cfs : List (String × Except Unit (List VOC.Collector.CRawPost)))
        (c : VOC.Collector.CCuratedPost),
        c ∈ (VOC.Collector.collector_fetch_posts filters pr cfs).1 →
        filters.min_score ≤ c.score ∧ filters.min_comments ≤ c.num_comments) := by
  refine ⟨?_, ?_, ?_⟩
  · intro filters pr fs c h
    exact fetch_posts_bounds h
  · intro filters pr fs sub p hlow hmem
    have hb := fetch_posts_bounds hmem
    rcases hlow with h | h
    · exact absurd hb.1 (not_le.mpr h)
    · exact absurd hb.2 (not_le.mpr h)
  · intro filters pr cfs c h
    exact ⟨(VOC.Collector.collector_mem_props h).2.2.1,
      (VOC.Collector.collector_mem_props h).2.2.2⟩

/-- Witness for C3: the returned candidate meets both thresholds, and the
low-scoring sample post's curated image is absent from the output. -/
theorem c3_engagement_filter_excludes_witness :
    sampleCuratedA ∈ (fetch_reddit_posts sampleFilters ["xyz"] sampleFetches).1 ∧
    (sampleFilters.min_score ≤ sampleCuratedA.score ∧
      sampleFilters.min_comments ≤ sampleCuratedA.num_comments) ∧
    curatePost "smallbusiness" samplePostLow ∉
      (fetch_reddit_posts sampleFilters ["xyz"] sampleFetches).1 := by
  have h1 : sampleCuratedA ∈ (fetch_reddit_posts sampleFilters ["xyz"] sampleFetches).1 := by
    decide
  exact ⟨h1,
    c3_engagement_filter_excludes.1 sampleFilters ["xyz"] sampleFetches _ h1,
    c3_engagement_filter_excludes.2.1 sampleFilters ["xyz"] sampleFetches
      "smallbusiness" samplePostLow (by decide)⟩

end VOC.Discovery

namespace VOC.Synthesis

/-- Claim C4: `filter_high_value_posts` is a pure partition of its input:
the two returned lists together are a permutation of the input, every
input post lands in exactly one of them, every accepted post carries a
numeric `ai_analysis.relevance_score` at least `min_score` (numeric in
Python's sense, where `bool` is an `int`), and a post without such a score
— including one with no `ai_analysis` at all — lands in rejected without
raising. -/
theorem c4_filter_high_value_partition :
    ∀ (posts : List SPost) (min_score : ℚ),
      List.Perm ((filter_high_value_posts posts min_score).1 ++
        (filter_high_value_posts posts min_score).2) posts ∧
      (∀ p ∈ posts,
        (p ∈ (filter_high_value_posts posts min_score).1 ∧
          p ∉ (filter_high_value_posts posts min_score).2) ∨
        (p ∈ (filter_high_value_posts posts min_score).2 ∧
          p ∉ (filter_high_value_posts posts min_score).1)) ∧
      (∀ p ∈ (filter_high_value_posts posts min_score).1,
        ∃ q, sPostScore p = some q ∧ min_score ≤ q) ∧
      (∀ p ∈ posts, sPostScore p = Option.none →
        p ∈ (filter_high_value_posts posts min_score).2) := by
  intro posts min_score
  refine ⟨List.filter_append_perm _ posts, ?_, ?_, ?_⟩
  · intro p hp
    by_cases h : hvAccept min_score p
    · left
      refine ⟨List.mem_filter.mpr ⟨hp, h⟩, fun hmem => ?_⟩
      have := (List.mem_filter.mp hmem).2
      simp [h] at this
    · right
      refine ⟨List.mem_filter.mpr ⟨hp, by simp [h]⟩, fun hmem => ?_⟩
      have := (List.mem_filter.mp hmem).2
      simp [h] at this
  · intro p hp
    have hacc : hvAccept min_score p = true := (List.mem_filter.mp hp).2
    cases hs : sPostScore p with
    | none => rw [hvAccept, hs] at hacc; simp at hacc
    | some q =>
        refine ⟨q, rfl, ?_⟩
        rw [hvAccept, hs] at hacc
        exact of_decide_eq_true hacc
  · intro p hp hs
    refine List.mem_filter.mpr ⟨hp, ?_⟩
    rw [Bool.not_eq_eq_eq_not, Bool.not_true]
    rw [hvAccept, hs]

/-- Witness for C4 on a three-post batch: the high-scoring post is
accepted with its numeric score, the score-less and string-scored posts
are rejected, and the partition is a permutation of the input. -/
theorem c4_filter_high_value_partition_witness :
    (∃ q, sPostScore sPostHigh = some q ∧ (6 : ℚ) ≤ q) ∧
    sPostNone ∈ (filter_high_value_posts [sPostHigh, sPostNone, sPostBad] 6).2 ∧
    List.Perm ((filter_high_value_posts [sPostHigh, sPostNone, sPostBad] 6).1 ++
      (filter_high_value_posts [sPostHigh, sPostNone, sPostBad] 6).2)
      [sPostHigh, sPostNone, sPostBad] := by
  have h := c4_filter_high_value_partition [sPostHigh, sPostNone, sPostBad] 6
  have hacc : (filter_high_value_posts [sPostHigh, sPostNone, sPostBad] 6).1 =
      [sPostHigh] := rfl
  refine ⟨h.2.2.1 sPostHigh ?_, h.2.2.2 sPostNone ?_ rfl, h.1⟩
  · rw [hacc]
    exact List.mem_cons_self _ _
  · exact List.Mem.tail _ (List.mem_cons_self _ _)

end VOC.Synthesis

namespace VOC.Discovery

theorem prescoreMatchItem_fst_mem {posts : List CuratedPost} {item : VOC.PyVal}
    {pr : CuratedPost × ℚ} (h : prescoreMatchItem posts item = some pr) :
    pr.1 ∈ posts := by
  unfold prescoreMatchItem at h
  split at h
  case _ kvs =>
    split at h
    case _ v heq =>
      split at h
      case isTrue => exact absurd h (by simp)
      case isFalse =>
        split at h
        case isTrue hrange =>
          obtain rfl := Option.some.inj h
          exact List.get_mem posts _ _
        case isFalse => exact absurd h (by simp)
    case _ => exact absurd h (by simp)
  case _ => exact absurd h (by simp)

theorem prescoreMatch_fst_mem {posts : List CuratedPost} {items : List VOC.PyVal}
    {pr : CuratedPost × ℚ} (h : pr ∈ prescoreMatch posts items) : pr.1 ∈ posts := by
  obtain ⟨item, hitem, heq⟩ := List.mem_filterMap.mp h
  exact prescoreMatchItem_fst_mem heq

/-- Claim C5 (amended): on any model failure (no client, raised call, empty
or unparsable response) or any validation failure the whole batch falls
back to the uniform neutral score 5.0 with nothing dropped; but when
validation passes, the returned scores are exactly the response items with
an in-range `post_index` (stably sorted descending), so a validated
response that references only a subset of the posts yields scores for only
that subset — the count mismatch is logged, never re-added. -/
theorem c5_prescore_fallback_or_matched :
    (∀ (posts : List CuratedPost), posts ≠ [] →
        batch_prescore_posts posts Option.none =
          (posts.map (fun p => (p, (5 : ℚ))), [])) ∧
    (∀ (posts : List CuratedPost) (v : VOC.PyVal), posts ≠ [] →
        validate_batch_prescore_response v posts.length = false →
        batch_prescore_posts posts (some v) =
          (posts.map (fun p => (p, (5 : ℚ))), [])) ∧
    (∀ (posts : List CuratedPost) (xs : List VOC.PyVal), posts ≠ [] →
        validate_batch_prescore_response (.pylist xs) posts.length = true →
        List.Perm (batch_prescore_posts posts (some (.pylist xs))).1
          (prescoreMatch posts xs) ∧
        (batch_prescore_posts posts (some (.pylist xs))).1.length =
          (prescoreMatch posts xs).length ∧
        (∀ pr ∈ (batch_prescore_posts posts (some (.pylist xs))).1, pr.1 ∈ posts)) := by
  refine ⟨?_, ?_, ?_⟩
  · intro posts hne
    have hemp : posts.isEmpty = false := by
      cases posts with
      | nil => exact absurd rfl hne
      | cons a as => rfl
    simp [batch_prescore_posts, hemp]
  · intro posts v hne hval
    have hemp : posts.isEmpty = false := by
      cases posts with
      | nil => exact absurd rfl hne
      | cons a as => rfl
    simp [batch_prescore_posts, hemp, hval]
  · intro posts xs hne hval
    have hemp : posts.isEmpty = false := by
      cases posts with
      | nil => exact absurd rfl hne
      | cons a as => rfl
    have hbatch : (batch_prescore_posts posts (some (.pylist xs))).1 =
        VOC.sortDescBy (fun x => x.2) (prescoreMatch posts xs) := by
      simp [batch_prescore_posts, hemp, hval, prescoreMatch]
    rw [hbatch]
    refine ⟨VOC.sortDescBy_perm _ _, VOC.length_sortDescBy _ _, ?_⟩
    intro pr hpr
    exact prescoreMatch_fst_mem ((VOC.mem_sortDescBy _ _ _).mp hpr)

/-- Counterexample for C5 as stated: a two-post batch with a structurally
valid one-item response passes validation (the count check only logs), so
the call returns a single scored post — neither one score per input post
nor the uniform fallback.  A strict subset is silently dropped. -/
theorem c5_counterexample_partial_drop :
    (batch_prescore_posts [prescorePost0, prescorePost1]
      (some prescoreShortResponse)).1.length = 1 ∧
    ([prescorePost0, prescorePost1].map (fun p => (p, (5 : ℚ)))).length = 2 ∧
    (batch_prescore_posts [prescorePost0, prescorePost1]
      (some prescoreShortResponse)).1 ≠
      [prescorePost0, prescorePost1].map (fun p => (p, (5 : ℚ))) := by
  refine ⟨rfl, rfl, ?_⟩
  intro h
  have h2 : (1 : Nat) = 2 := by
    calc (1 : Nat)
        = (batch_prescore_posts [prescorePost0, prescorePost1]
            (some prescoreShortResponse)).1.length := rfl
      _ = ([prescorePost0, prescorePost1].map (fun p => (p, (5 : ℚ)))).length :=
            congrArg List.length h
      _ = 2 := rfl
  exact absurd h2 (by decide)

/-- Witness for C5 (amended): the uniform fallback on a missing response
and on a failed validation, and the matched-subset shape on the validated
short response. -/
theorem c5_prescore_fallback_or_matched_witness :
    batch_prescore_posts [prescorePost0] Option.none =
      ([(prescorePost0, (5 : ℚ))], []) ∧
    batch_prescore_posts [prescorePost0] (some (.pystr "bad")) =
      ([(prescorePost0, (5 : ℚ))], []) ∧
    (batch_prescore_posts [prescorePost0, prescorePost1]
      (some (.pylist prescoreShortItems))).1.length =
      (prescoreMatch [prescorePost0, prescorePost1] prescoreShortItems).length := by
  refine ⟨?_, ?_, ?_⟩
  · exact c5_prescore_fallback_or_matched.1 [prescorePost0] (by simp)
  · exact c5_prescore_fallback_or_matched.2.1 [prescorePost0] (.pystr "bad")
      (by simp) rfl
  · exact (c5_prescore_fallback_or_matched.2.2 [prescorePost0, prescorePost1]
      prescoreShortItems (by simp) rfl).2.1

end VOC.Discovery

namespace VOC.Synthesis

/-- Counterexample for C6 as stated: in the voc_discovery variant with the
Gemini client unavailable, `generate_curated_queries([], [], config)`
returns the missing-key warning — not `([], [])` — because the client
check precedes the empty-summaries short-circuit. -/
theorem c6_counterexample_missing_client :
    generate_curated_queries_discovery false [] [] CQOutcome.callError =
      ⟨[], ["GEMINI_API_KEY missing; unable to generate curated queries."], false⟩ := rfl

/-- Claim C6 (amended): whenever both rendered summaries are empty — in
particular on empty inputs — `generate_curated_queries` short-circuits to
`([], [])` with no model call, provided the Gemini client is available in
the voc_discovery variant; the voc_synthesis variant (whose client is a
required argument) short-circuits unconditionally. -/
theorem c6_empty_summaries_short_circuit :
    (∀ (analyzed : List SPost) (trends : List TrendSignalLite) (outcome : CQOutcome),
        painPointLines analyzed = [] → trendsLines trends = [] →
        generate_curated_queries_discovery true analyzed trends outcome =
          ⟨[], [], false⟩) ∧
    (∀ (analyzed : List SPost) (trends : List TrendSignalLite) (outcome : CQOutcomeS),
        painPointLines analyzed = [] → trendsLines trends = [] →
        generate_curated_queries_synthesis analyzed trends outcome =
          ⟨[], [], false⟩) ∧
    (∀ outcome : CQOutcome,
        generate_curated_queries_discovery true [] [] outcome = ⟨[], [], false⟩) ∧
    (∀ outcome : CQOutcomeS,
        generate_curated_queries_synthesis [] [] outcome = ⟨[], [], false⟩) := by
  have hd : ∀ (analyzed : List SPost) (trends : List TrendSignalLite)
      (outcome : CQOutcome), painPointLines analyzed = [] → trendsLines trends = [] →
      generate_curated_queries_discovery true analyzed trends outcome = ⟨[], [], false⟩ := by
    intro analyzed trends outcome h1 h2
    simp [generate_curated_queries_discovery, h1, h2]
  have hs : ∀ (analyzed : List SPost) (trends : List TrendSignalLite)
      (outcome : CQOutcomeS), painPointLines analyzed = [] → trendsLines trends = [] →
      generate_curated_queries_synthesis analyzed trends outcome = ⟨[], [], false⟩ := by
    intro analyzed trends outcome h1 h2
    simp [generate_curated_queries_synthesis, h1, h2]
  exact ⟨hd, hs, fun outcome => hd [] [] outcome rfl rfl,
    fun outcome => hs [] [] outcome rfl rfl⟩

/-- Witness for C6 (amended), at empty inputs and an arbitrary concrete
model outcome for both variants. -/
theorem c6_empty_summaries_short_circuit_witness :
    generate_curated_queries_discovery true [] [] CQOutcome.callError =
      ⟨[], [], false⟩ ∧
    generate_curated_queries_synthesis [] [] CQOutcomeS.raisedError =
      ⟨[], [], false⟩ :=
  ⟨c6_empty_summaries_short_circuit.1 [] [] CQOutcome.callError rfl rfl,
   c6_empty_summaries_short_circuit.2.1 [] [] CQOutcomeS.raisedError rfl rfl⟩

end VOC.Synthesis

namespace VOC.Trends

theorem processKeyword_sig_none {kw : String} {cmp : Option String}
    {oracle : Nat → Option TrendFetchData} :
    (processKeyword kw cmp oracle).1 = Option.none ↔
      tryKeyword oracle = Option.none := by
  cases h : tryKeyword oracle with
  | none => simp [processKeyword, h]
  | some pd =>
      obtain ⟨i, d⟩ := pd
      simp [processKeyword, h]

theorem trends_foldl_eq (cmp : Option String)
    (oracle : String → Nat → Option TrendFetchData) :
    ∀ (kws : List String) (acc : List TrendSignalFull × List String),
      List.foldl
        (fun acc kw =>
          let pk := processKeyword kw cmp (oracle kw)
          (acc.1 ++ pk.1.toList, acc.2 ++ pk.2)) acc kws
      = (acc.1 ++ kws.flatMap (fun kw => (processKeyword kw cmp (oracle kw)).1.toList),
         acc.2 ++ kws.flatMap (fun kw => (processKeyword kw cmp (oracle kw)).2)) := by
  intro kws
  induction kws with
  | nil => intro acc; simp
  | cons kw kws ih =>
      intro acc
      rw [List.foldl_cons, ih]
      simp [List.append_assoc]

theorem fetch_google_trends_eq (kws : List String) (cmp : Option String)
    (oracle : String → Nat → Option TrendFetchData) (h : kws ≠ []) :
    fetch_google_trends kws cmp oracle =
      if (kws.flatMap
            (fun kw => (processKeyword kw cmp (oracle kw)).1.toList)).isEmpty then
        Except.error
          "Google Trends returned no data for any keywords - likely rate limited or service issue"
      else
        Except.ok
          (kws.flatMap (fun kw => (processKeyword kw cmp (oracle kw)).1.toList),
           kws.flatMap (fun kw => (processKeyword kw cmp (oracle kw)).2)) := by
  have hemp : kws.isEmpty = false := by
    cases kws with
    | nil => exact absurd rfl h
    | cons a as => rfl
  simp only [fetch_google_trends, hemp, Bool.false_eq_true, if_false]
  rw [trends_foldl_eq cmp oracle kws ([], [])]
  simp

/-- Claim C7: `fetch_google_trends` escalates to a fatal error exactly when
at least one keyword is configured and no keyword produced a trend signal
within its attempt budget; any keyword that fails all attempts only adds a
warning to an otherwise normal return, and any keyword that succeeds —
even with structurally empty data — contributes its signal to a normal
return. -/
theorem c7_trends_fatal_iff_no_signals :
    ∀ (kws : List String) (cmp : Option String)
      (oracle : String → Nat → Option TrendFetchData),
      ((∃ e, fetch_google_trends kws cmp oracle = Except.error e) ↔
        (kws ≠ [] ∧ ∀ kw ∈ kws, tryKeyword (oracle kw) = Option.none)) ∧
      (∀ kw ∈ kws, tryKeyword (oracle kw) = Option.none →
        ∀ sigs warns, fetch_google_trends kws cmp oracle = Except.ok (sigs, warns) →
          failWarning kw ∈ warns) ∧
      (∀ kw ∈ kws, ∀ i d, tryKeyword (oracle kw) = some (i, d) →
        ∃ sigs warns,
          fetch_google_trends kws cmp oracle = Except.ok (sigs, warns) ∧
            mkTrendSignal kw cmp d ∈ sigs) := by
  intro kws cmp oracle
  by_cases hk : kws = []
  · subst hk
    refine ⟨?_, ?_, ?_⟩
    · constructor
      · rintro ⟨e, he⟩
        simp [fetch_google_trends] at he
      · rintro ⟨hne, -⟩
        exact absurd rfl hne
    · intro kw hkw
      exact absurd hkw (List.not_mem_nil kw)
    · intro kw hkw
      exact absurd hkw (List.not_mem_nil kw)
  · have heq := fetch_google_trends_eq kws cmp oracle hk
    refine ⟨?_, ?_, ?_⟩
    · constructor
      · rintro ⟨e, he⟩
        rw [heq] at he
        refine ⟨hk, ?_⟩
        intro kw hkw
        cases hs : (kws.flatMap
            (fun kw => (processKeyword kw cmp (oracle kw)).1.toList)).isEmpty with
        | false => rw [hs] at he; simp at he
        | true =>
            have h0 := List.isEmpty_iff.mp hs
            have h1 : (processKeyword kw cmp (oracle kw)).1.toList = [] :=
              List.flatMap_eq_nil_iff.mp h0 kw hkw
            apply processKeyword_sig_none.mp
            cases hpk : (processKeyword kw cmp (oracle kw)).1 with
            | none => rfl
            | some sig => rw [hpk] at h1; simp at h1
      · rintro ⟨-, hall⟩
        have hzero : kws.flatMap
            (fun kw => (processKeyword kw cmp (oracle kw)).1.toList) = [] := by
          apply List.flatMap_eq_nil_iff.mpr
          intro kw hkw
          rw [processKeyword_sig_none.mpr (hall kw hkw)]
          rfl
        exact ⟨_, by rw [heq, hzero]; rfl⟩
    · intro kw hkw htry sigs warns hok
      rw [heq] at hok
      cases hs : (kws.flatMap
          (fun kw => (processKeyword kw cmp (oracle kw)).1.toList)).isEmpty with
      | true => rw [hs] at hok; simp at hok
      | false =>
          rw [hs] at hok
          simp only [Bool.false_eq_true, if_false, Except.ok.injEq, Prod.mk.injEq] at hok
          have hw : failWarning kw ∈ kws.flatMap
              (fun kw => (processKeyword kw cmp (oracle kw)).2) := by
            refine List.mem_flatMap.mpr ⟨kw, hkw, ?_⟩
            simp [processKeyword, htry]
          rw [← hok.2]
          exact hw
    · intro kw hkw i d htry
      have hsig : mkTrendSignal kw cmp d ∈ kws.flatMap
          (fun kw => (processKeyword kw cmp (oracle kw)).1.toList) := by
        refine List.mem_flatMap.mpr ⟨kw, hkw, ?_⟩
        simp [processKeyword, htry]
      have hs := VOC.isEmpty_false_of_mem hsig
      refine ⟨kws.flatMap (fun kw => (processKeyword kw cmp (oracle kw)).1.toList),
        kws.flatMap (fun kw => (processKeyword kw cmp (oracle kw)).2), ?_, hsig⟩
      rw [heq, hs]
      simp

/-- Witness for C7: with every attempt failing for the only keyword the
call escalates to an error; with a failing first keyword and a succeeding
second, the failing keyword's warning is in the returned warning list. -/
theorem c7_trends_fatal_iff_no_signals_witness :
    (∃ e, fetch_google_trends ["a"] Option.none (fun _ _ => Option.none) =
      Except.error e) ∧
    failWarning "a" ∈ [failWarning "a"] := by
  constructor
  · exact (c7_trends_fatal_iff_no_signals ["a"] Option.none
      (fun _ _ => Option.none)).1.mpr ⟨by simp, fun kw _ => rfl⟩
  · exact (c7_trends_fatal_iff_no_signals ["a", "b"] Option.none
      twoKeywordOracle).2.1 "a" (List.mem_cons_self _ _) rfl
      [mkTrendSignal "b" Option.none sampleTrendData] [failWarning "a"] rfl

/-- Counterexample for C8 as stated: a keyword that fails the first two
attempts and succeeds on the third contributes its trend signal and ZERO
entries to the returned warnings list — not exactly one.  Retry attempts
are only logged, never recorded as warnings. -/
theorem c8_counterexample_retry_warning :
    fetch_google_trends ["hiring"] Option.none (fun _ => thirdTryOracle) =
      Except.ok ([mkTrendSignal "hiring" Option.none sampleTrendData], []) := rfl

/-- Claim C8 (amended): each keyword is attempted at most 3 times — the
run is unchanged by anything the oracle would do from attempt 3 on; a
keyword failing twice then succeeding contributes its signal and no
retry-warning entries (only the structurally-empty warning can apply); a
keyword failing all 3 attempts contributes exactly one warning. -/
theorem c8_retry_attempts_and_warnings :
    (∀ (kw : String) (cmp : Option String) (oracle : Nat → Option TrendFetchData)
        (d : TrendFetchData),
        oracle 0 = Option.none → oracle 1 = Option.none → oracle 2 = some d →
        processKeyword kw cmp oracle =
          (some (mkTrendSignal kw cmp d),
            if isEmptyTrendData d then [emptyDataWarning kw] else [])) ∧
    (∀ (kw : String) (cmp : Option String) (oracle : Nat → Option TrendFetchData),
        (∀ n, n < 3 → oracle n = Option.none) →
        processKeyword kw cmp oracle = (Option.none, [failWarning kw])) ∧
    (∀ (kws : List String) (cmp : Option String)
        (o o' : String → Nat → Option TrendFetchData),
        (∀ k n, n < 3 → o k n = o' k n) →
        fetch_google_trends kws cmp o = fetch_google_trends kws cmp o') := by
  refine ⟨?_, ?_, ?_⟩
  · intro kw cmp oracle d h0 h1 h2
    simp [processKeyword, tryKeyword, firstSuccessWithin, h0, h1, h2]
  · intro kw cmp oracle h
    have h0 := h 0 (by omega)
    have h1 := h 1 (by omega)
    have h2 := h 2 (by omega)
    simp [processKeyword, tryKeyword, firstSuccessWithin, h0, h1, h2]
  · intro kws cmp o o' h
    have hpk : ∀ kw, processKeyword kw cmp (o kw) = processKeyword kw cmp (o' kw) := by
      intro kw
      have e0 := h kw 0 (by omega)
      have e1 := h kw 1 (by omega)
      have e2 := h kw 2 (by omega)
      have htk : tryKeyword (o kw) = tryKeyword (o' kw) := by
        simp [tryKeyword, firstSuccessWithin, e0, e1, e2]
      simp [processKeyword, htk]
    have hstep :
        (fun (acc : List TrendSignalFull × List String) kw =>
          let pk := processKeyword kw cmp (o kw)
          (acc.1 ++ pk.1.toList, acc.2 ++ pk.2)) =
        (fun (acc : List TrendSignalFull × List String) kw =>
          let pk := processKeyword kw cmp (o' kw)
          (acc.1 ++ pk.1.toList, acc.2 ++ pk.2)) := by
      funext acc kw
      rw [hpk kw]
    simp only [fetch_google_trends, hstep]

/-- Witness for C8 (amended): the fail-fail-succeed oracle yields the
signal with no warnings, and the always-failing oracle yields exactly one
warning. -/
theorem c8_retry_attempts_and_warnings_witness :
    processKeyword "hiring" Option.none thirdTryOracle =
      (some (mkTrendSignal "hiring" Option.none sampleTrendData), []) ∧
    processKeyword "gone" Option.none (fun _ => Option.none) =
      (Option.none, [failWarning "gone"]) := by
  constructor
  · exact (c8_retry_attempts_and_warnings.1 "hiring" Option.none thirdTryOracle
      sampleTrendData rfl rfl rfl).trans rfl
  · exact c8_retry_attempts_and_warnings.2.1 "gone" Option.none
      (fun _ => Option.none) (fun n _ => rfl)

end VOC.Trends

namespace VOC.Discovery

theorem childrenList_map_pydict :
    ∀ cs : List (List (String × VOC.PyVal)),
      childrenList (cs.map VOC.PyVal.pydict) =
        Except.ok (cs.map (fun kvs => VOC.pyGetD kvs "data" (.pydict []))) := by
  intro cs
  induction cs with
  | nil => rfl
  | cons c cs ih => simp [childrenList, ih]

/-- Counterexample for C9 as stated: the collector variant
(`RedditDataCollector._fetch_subreddit`) maps a bare JSON array — one of
the four claimed shapes — to the empty list, losing its posts; and the
voc_discovery normalisation raises (rather than returning `[]`) on an
unrecognized `data.children` payload whose children entries are not
dicts. -/
theorem c9_counterexample_shape_normalization :
    VOC.Collector.collectorNormalizePayload
      (.pylist [.pydict [("id", .pystr "x")]]) = [] ∧
    normalizeListingPayload
      (.pydict [("data", .pydict [("children", .pylist [.pyint 5])])]) =
      .error () := ⟨rfl, rfl⟩

/-- Claim C9 (amended): the voc_discovery fetch normalizes all four
observed shapes (bare array; data list; posts list; data.children with
dict children) to the contained posts, and maps scalar payloads and
unmatched dicts to the empty list — but a children-shaped payload with
non-dict children raises instead of returning `[]`; the voc_reddit
collector variant recognises only the data-list and posts-list shapes and
maps every other payload, including a bare array, to the empty list. -/
theorem c9_shape_normalization :
    (∀ l, normalizeListingPayload (.pylist l) = .ok l) ∧
    (∀ l, normalizeListingPayload (.pydict [("data", .pylist l)]) = .ok l) ∧
    (∀ l, normalizeListingPayload (.pydict [("posts", .pylist l)]) = .ok l) ∧
    (∀ cs : List (List (String × VOC.PyVal)),
        normalizeListingPayload
          (.pydict [("data", .pydict [("children", .pylist (cs.map VOC.PyVal.pydict))])]) =
          .ok (cs.map (fun kvs => VOC.pyGetD kvs "data" (.pydict [])))) ∧
    (normalizeListingPayload .none = .ok [] ∧
      (∀ b, normalizeListingPayload (.pybool b) = .ok []) ∧
      (∀ n, normalizeListingPayload (.pyint n) = .ok []) ∧
      (∀ q, normalizeListingPayload (.pyfloat q) = .ok []) ∧
      (∀ s, normalizeListingPayload (.pystr s) = .ok []) ∧
      normalizeListingPayload (.pydict []) = .ok []) ∧
    (∀ l, VOC.Collector.collectorNormalizePayload (.pydict [("data", .pylist l)]) = l) ∧
    (∀ l, VOC.Collector.collectorNormalizePayload (.pydict [("posts", .pylist l)]) = l) ∧
    (∀ l, VOC.Collector.collectorNormalizePayload (.pylist l) = []) := by
  refine ⟨fun l => rfl, fun l => rfl, fun l => rfl, ?_,
    ⟨rfl, fun b => rfl, fun n => rfl, fun q => rfl, fun s => rfl, rfl⟩,
    fun l => rfl, fun l => rfl, fun l => rfl⟩
  intro cs
  exact childrenList_map_pydict cs

end VOC.Discovery

namespace VOC.Merge

theorem pyGet_setKey_self (d : List (String × VOC.PyVal)) (k : String) (v : VOC.PyVal) :
    VOC.pyGet (VOC.setKey d k v) k = some v := by
  induction d with
  | nil => simp [VOC.setKey, VOC.pyGet]
  | cons kv rest ih =>
      obtain ⟨k', v'⟩ := kv
      by_cases h : k' = k
      · simp [VOC.setKey, VOC.pyGet, h]
      · simp [VOC.setKey, VOC.pyGet, h, ih]

theorem pyGet_setKey_other (d : List (String × VOC.PyVal)) {k k' : String}
    (v : VOC.PyVal) (h : k' ≠ k) :
    VOC.pyGet (VOC.setKey d k' v) k = VOC.pyGet d k := by
  induction d with
  | nil => simp [VOC.setKey, VOC.pyGet, h]
  | cons kv rest ih =>
      obtain ⟨k0, v0⟩ := kv
      by_cases h0 : k0 = k'
      · simp [VOC.setKey, VOC.pyGet, h0, h]
      · simp only [VOC.setKey, h0, if_false]
        by_cases h1 : k0 = k
        · simp [VOC.pyGet, h1]
        · simp [VOC.pyGet, h1, ih]

theorem mergeConfigs_cons (base : List (String × VOC.PyVal)) (k : String)
    (v : VOC.PyVal) (ov : List (String × VOC.PyVal)) :
    mergeConfigs base ((k, v) :: ov) =
      mergeConfigs (VOC.setKey base k (mergeValue v (VOC.pyGet base k))) ov := rfl

theorem mergeConfigs_lookup_not_mem :
    ∀ {ov : List (String × VOC.PyVal)} {k : String}
      (base : List (String × VOC.PyVal)), k ∉ ov.map Prod.fst →
      VOC.pyGet (mergeConfigs base ov) k = VOC.pyGet base k := by
  intro ov
  induction ov with
  | nil => intro k base h; rfl
  | cons kv rest ih =>
      intro k base h
      obtain ⟨k1, v1⟩ := kv
      simp only [List.map_cons, List.mem_cons, not_or] at h
      rw [mergeConfigs_cons, ih _ h.2,
        pyGet_setKey_other _ _ (fun he => h.1 he.symm)]

theorem mergeConfigs_lookup :
    ∀ {ov : List (String × VOC.PyVal)} (base : List (String × VOC.PyVal))
      (k : String), (ov.map Prod.fst).Nodup →
      VOC.pyGet (mergeConfigs base ov) k =
        match VOC.pyGet ov k with
        | some v => some (mergeValue v (VOC.pyGet base k))
        | Option.none => VOC.pyGet base k := by
  intro ov
  induction ov with
  | nil => intro base k hnd; rfl
  | cons kv rest ih =>
      intro base k hnd
      obtain ⟨k1, v1⟩ := kv
      simp only [List.map_cons, List.nodup_cons] at hnd
      by_cases hk : k1 = k
      · subst hk
        rw [mergeConfigs_cons, mergeConfigs_lookup_not_mem _ hnd.1,
          pyGet_setKey_self]
        simp [VOC.pyGet]
      · rw [mergeConfigs_cons, ih _ k hnd.2, pyGet_setKey_other _ _ hk]
        simp [VOC.pyGet, hk]

/-- Counterexample for C10 as stated: the override merge in
`run_voc_discovery` is one level deep, not recursive — merging
base `a.b = (x:1, y:2)` with override `a.b = (x:9)` drops the base key
`a.b.y`, while the recursive deep-merge the spec describes keeps it. -/
theorem c10_counterexample_shallow_merge :
    pathLookup (mergeConfigs mergeBaseSample mergeOvSample) ["a", "b", "y"] =
      Option.none ∧
    pathLookup (deepMergeSpec 2 mergeBaseSample mergeOvSample) ["a", "b", "y"] =
      some (.pyint 2) := ⟨rfl, rfl⟩

/-- Claim C10 (amended): the override merge of `run_voc_discovery` merges
one level deep: for every key, an override value that is a dict while the
base value is a dict yields the base dict updated key-by-key with the
override dict (nested values replacing wholesale); any other override
value replaces wholesale; base keys absent from the override are
preserved unchanged. -/
theorem c10_merge_characterization :
    ∀ (base ov : List (String × VOC.PyVal)) (k : String),
      (ov.map Prod.fst).Nodup →
      VOC.pyGet (mergeConfigs base ov) k =
        match VOC.pyGet ov k with
        | some v => some (mergeValue v (VOC.pyGet base k))
        | Option.none => VOC.pyGet base k := by
  intro base ov k hnd
  exact mergeConfigs_lookup base k hnd

/-- Witness for C10 (amended) on the sample configs: the merged value at
`a` is the one-level update of the base dict with the override dict. -/
theorem c10_merge_characterization_witness :
    VOC.pyGet (mergeConfigs mergeBaseSample mergeOvSample) "a" =
      some (mergeValue (.pydict [("b", .pydict [("x", .pyint 9)])])
        (VOC.pyGet mergeBaseSample "a")) := by
  have h := c10_merge_characterization mergeBaseSample mergeOvSample "a" (by decide)
  exact h.trans rfl

end VOC.Merge
